import Mathlib

/-!
Verification of the YouTube Transcript MCP server
(`src/youtube_transcript_server.py`) against its specification.

The server is embedded shallowly:

* JSON values decoded by `json.loads` are the inductive `Json`.
* Python exceptions that can arise while handling one message are `PyExn`;
  Python's `str(e)` is `PyExn.msg`.  The exact interpreter wording for
  `TypeError`/`AttributeError`/`UnboundLocalError` messages does not matter
  for any property below, so those carry fixed placeholder strings; only
  `KeyError` (whose `str` is the quoted key) and exceptions raised by the
  transcript provider (whose message is carried verbatim) are ever inspected.
* The external `YouTubeTranscriptApi.get_transcript` collaborator is an
  opaque parameter of type `Provider`; `none` for the second argument means
  the call was made without a `languages=` keyword.
* `handle_message` consumes the outcome of `json.loads(line.strip())`
  (`Except PyExn Json`); the stdlib parser itself is outside the repository
  and is therefore left abstract.  `run` folds `handle_message` over the
  parse outcomes of the input lines, collecting the JSON objects printed to
  stdout and recording an exception that escapes `handle_message`
  (which terminates the Python process).
-/

namespace YTS

/-- A JSON value as produced by `json.loads`.  Object fields model a Python
dict, so keys are unique and `List.lookup` retrieves the field. -/
inductive Json where
  | null
  | bool (b : Bool)
  | num (n : Int)
  | str (s : String)
  | arr (elems : List Json)
  | obj (fields : List (String × Json))
  deriving Repr, Inhabited

/-- Python exceptions reachable while the server handles one message. -/
inductive PyExn where
  /-- `json.loads` failed on the input line. -/
  | jsonDecodeError (m : String)
  /-- `d[k]` on a dict without key `k`. -/
  | keyError (k : String)
  /-- subscripting a non-dict, or `str.join` over non-strings. -/
  | typeError
  /-- `.get` called on a value that is not a dict. -/
  | attrError
  /-- the `except` block read the local `request` before assignment. -/
  | unboundLocal
  /-- exception raised by `YouTubeTranscriptApi.get_transcript`. -/
  | providerError (m : String)
  deriving Repr, DecidableEq

/-- Python `str(e)` for the exceptions above.  `str(KeyError(k))` is the
repr-quoted key; a provider exception stringifies to its own message; the
remaining messages are interpreter-generated text that no property below
depends on, kept abstract as fixed placeholders. -/
def PyExn.msg : PyExn → String
  | .jsonDecodeError m => m
  | .keyError k => "'" ++ k ++ "'"
  | .typeError => "TypeError"
  | .attrError => "AttributeError"
  | .unboundLocal => "cannot access local variable where it is not associated with a value"
  | .providerError m => m

mutual

/-- Python `repr()` of a decoded-JSON value (string-escaping corner cases
simplified; no property below inspects nested reprs). -/
def pyRepr : Json → String
  | .null => "None"
  | .bool true => "True"
  | .bool false => "False"
  | .num n => toString n
  | .str s => "'" ++ s ++ "'"
  | .arr xs => "[" ++ pyReprElems xs ++ "]"
  | .obj fs => "\x7b" ++ pyReprFields fs ++ "\x7d"

/-- comma-separated reprs of list elements. -/
def pyReprElems : List Json → String
  | [] => ""
  | [x] => pyRepr x
  | x :: xs => pyRepr x ++ ", " ++ pyReprElems xs

/-- comma-separated `'key': value` reprs of dict fields. -/
def pyReprFields : List (String × Json) → String
  | [] => ""
  | [(k, v)] => "'" ++ k ++ "': " ++ pyRepr v
  | (k, v) :: fs => "'" ++ k ++ "': " ++ pyRepr v ++ ", " ++ pyReprFields fs

end

/-- Python `str()` of a decoded-JSON value, as used by f-string
interpolation (`str` renders itself, everything else via `repr`). -/
def pyStr : Json → String
  | .str s => s
  | j => pyRepr j

/-- f-string interpolation of a `dict.get` result (`None` when absent). -/
def pyStrOpt : Option Json → String
  | none => "None"
  | some j => pyStr j

/-- Python truthiness of a decoded-JSON value. -/
def pyTruthy : Json → Bool
  | .null => false
  | .bool b => b
  | .num n => n != 0
  | .str s => s != ""
  | .arr xs => !xs.isEmpty
  | .obj fs => !fs.isEmpty

/-- Truthiness of a `dict.get` result (`None`, i.e. absent, is falsy). -/
def pyTruthyOpt : Option Json → Bool
  | none => false
  | some j => pyTruthy j

/-- `d[k]`: raises `KeyError` on a dict without the key and `TypeError`
when subscripting a non-dict with a string key. -/
def pyGetItem : Json → String → Except PyExn Json
  | .obj fs, k =>
    match fs.lookup k with
    | some v => .ok v
    | none => .error (.keyError k)
  | _, _ => .error .typeError

/-- The external transcript provider, `YouTubeTranscriptApi.get_transcript`:
takes the `video_id` argument and an optional `languages=` keyword argument,
and either returns the list of transcript entries or raises (the `String`
is `str` of the raised exception). -/
def Provider := Json → Option Json → Except String (List Json)

/-- The keys of `self.handlers`, built in `__init__` (lines 46-54). -/
def handlerNames : List String :=
  ["initialize", "tools/list", "tools/call", "resources/list",
   "resources/templates/list", "notifications/initialized", "cancelled"]

/-- `method not in self.handlers`, negated: the dispatch guard of
`handle_message` line 233.  Only a string can be a key of the table. -/
def methodInHandlers : Option Json → Bool
  | some (.str s) => handlerNames.contains s
  | _ => false

/-- The result object returned by `handle_initialize` (lines 70-87),
parameterized by the echoed protocol version. -/
def initResult (version : Json) : Json :=
  .obj
    [("protocolVersion", version),
     ("serverInfo", .obj
       [("name", .str "youtube-transcript-server"),
        ("version", .str "0.1.0")]),
     ("capabilities", .obj
       [("tools", .obj [("available", .bool true)]),
        ("resources", .obj [("available", .bool false)]),
        ("resourceTemplates", .obj [("available", .bool false)])])]

/-- `handle_initialize` (lines 56-87): echo `params.get('protocolVersion',
'0.1.0')` inside the static result; `params.get` raises `AttributeError`
when `params` is not a dict. -/
def handle_initialize (params : Json) : Except PyExn Json :=
  match params with
  | .obj fs => .ok (initResult ((fs.lookup "protocolVersion").getD (.str "0.1.0")))
  | _ => .error .attrError

/-- `handle_notification` (lines 89-97): log and `return None`. -/
def handle_notification (_params : Json) : Option Json := none

/-- `handle_cancelled` (lines 99-107): log and `return None`. -/
def handle_cancelled (_params : Json) : Option Json := none

/-- `handle_list_resources` (lines 109-116). -/
def handle_list_resources (_params : Json) : Json :=
  .obj [("resources", .arr [])]

/-- `handle_list_resource_templates` (lines 118-125). -/
def handle_list_resource_templates (_params : Json) : Json :=
  .obj [("resourceTemplates", .arr [])]

/-- `handle_list_tools` (lines 127-162): the static tool descriptor. -/
def handle_list_tools (_params : Json) : Json :=
  .obj [("tools", .arr
    [.obj
      [("name", .str "get_transcript"),
       ("description", .str "Get transcript for a YouTube video"),
       ("inputSchema", .obj
         [("type", .str "object"),
          ("properties", .obj
            [("video_id", .obj
              [("type", .str "string"),
               ("description", .str "YouTube video ID (e.g., dQw4w9WgXcQ from youtube.com/watch?v=dQw4w9WgXcQ)")]),
             ("languages", .obj
              [("type", .str "array"),
               ("items", .obj [("type", .str "string")]),
               ("description", .str "List of language codes to try (e.g., [\"en\"]). Optional.")])]),
          ("required", .arr [.str "video_id"])])]])]

/-- Python hashability of a decoded-JSON value: lists and dicts are
unhashable, so using one as a dict-membership key raises `TypeError`. -/
def pyHashable : Json → Bool
  | .arr _ => false
  | .obj _ => false
  | _ => true

/-- Hashability of a `dict.get` result (`None` is hashable). -/
def pyHashableOpt : Option Json → Bool
  | none => true
  | some j => pyHashable j

/-- `tool_name != 'get_transcript'`, negated (line 174). -/
def isGetTranscript : Option Json → Bool
  | some (.str s) => s == "get_transcript"
  | _ => false

/-- `[entry['text'] for entry in transcript]` (line 197). -/
def formatEntries : List Json → Except PyExn (List Json)
  | [] => .ok []
  | e :: es => do
    let t ← pyGetItem e "text"
    let ts ← formatEntries es
    pure (t :: ts)

/-- `'\n'.join(formatted_transcript)` (line 198): `TypeError` unless every
element is a string. -/
def pyJoinNewline : List Json → Except PyExn String
  | [] => .ok ""
  | [.str s] => .ok s
  | .str s :: rest => (pyJoinNewline rest).map (fun r => s ++ "\n" ++ r)
  | _ => .error .typeError

/-- The `try` block of `handle_call_tool` (lines 183-208): extract
`video_id` (KeyError when missing), read `languages` with `.get`, call the
provider with `languages=` exactly when the value is truthy, join the
entries' text fields, and wrap the result as a text content block. -/
def callBody (provider : Provider) (args : Json) : Except PyExn Json := do
  let video_id ← pyGetItem args "video_id"
  let languages :=
    match args with
    | .obj fs => fs.lookup "languages"
    | _ => none
  let transcript ←
    match (if pyTruthyOpt languages
           then provider video_id languages
           else provider video_id none) with
    | .ok t => Except.ok t
    | .error m => Except.error (.providerError m)
  let formatted ← formatEntries transcript
  let result ← pyJoinNewline formatted
  pure (.obj [("content", .arr
    [.obj [("type", .str "text"), ("text", .str result)]])])

/-- An in-result error object `{error: {code, message}}` as built by
`handle_call_tool` (lines 176-181 and 213-218). -/
def toolErrorObj (code : Int) (msg : String) : Json :=
  .obj [("error", .obj
    [("code", .num code), ("message", .str msg)])]

/-- `handle_call_tool` (lines 164-218).  `params.get('name')` is outside
the `try`, so it raises `AttributeError` for non-dict `params`; for a dict,
an unknown tool yields the -32601-shaped result and `get_transcript` runs
`callBody` with every exception converted to the -32000 error result. -/
def handle_call_tool (provider : Provider) (params : Json) : Except PyExn Json :=
  match params with
  | .obj fs =>
    let tool_name := fs.lookup "name"
    if isGetTranscript tool_name then
      .ok (match callBody provider ((fs.lookup "arguments").getD (.obj [])) with
        | .ok r => r
        | .error e => toolErrorObj (-32000) ("Error getting transcript: " ++ e.msg))
    else
      .ok (toolErrorObj (-32601) ("Unknown tool: " ++ pyStrOpt tool_name))
  | _ => .error .attrError

/-- `self.handlers[method](request.get('params', \x7b\x7d))` (line 243):
invoke the handler selected by a method name known to be in the table.
`none` is a handler returning Python `None`. -/
def dispatch (provider : Provider) (name : String) (params : Json) :
    Except PyExn (Option Json) :=
  if name = "initialize" then Except.map some ( handle_initialize params)
  else if name = "tools/list" then .ok (some ( handle_list_tools params))
  else if name = "tools/call" then Except.map some ( handle_call_tool provider params)
  else if name = "resources/list" then .ok (some ( handle_list_resources params))
  else if name = "resources/templates/list" then
    .ok (some ( handle_list_resource_templates params))
  else if name = "notifications/initialized" then .ok ( handle_notification params)
  else if name = "cancelled" then .ok ( handle_cancelled params)
  else .ok none

/-- A success envelope (lines 249-253); a missing request `id` is Python
`None`, serialized as JSON `null`. -/
def successResponse (idv : Option Json) (result : Json) : Json :=
  .obj [("jsonrpc", .str "2.0"), ("id", idv.getD .null), ("result", result)]

/-- An error envelope (lines 234-241 and 260-267). -/
def errorResponse (idv : Option Json) (code : Int) (msg : String) : Json :=
  .obj [("jsonrpc", .str "2.0"), ("id", idv.getD .null),
        ("error", .obj [("code", .num code), ("message", .str msg)])]

/-- The `try` block of `handle_message` (lines 227-256), given the outcome
of `json.loads(message)`: `ok none` means a normal return with no response
printed, `ok (some r)` means response `r` is printed, `error e` means the
exception `e` reaches the `except` block.  The membership test
`method not in self.handlers` hashes `method`, so an unhashable `method`
value (a JSON array or object) raises `TypeError` there. -/
def tryBody (provider : Provider) (parsed : Except PyExn Json) :
    Except PyExn (Option Json) :=
  match parsed with
  | .error e => .error e
  | .ok (.obj fs) =>
    match fs.lookup "method" with
    | some (.str name) =>
      if handlerNames.contains name then
        match dispatch provider name ((fs.lookup "params").getD (.obj [])) with
        | .ok none => .ok none
        | .ok (some result) =>
          .ok (some (successResponse (fs.lookup "id") result))
        | .error e => .error e
      else
        .ok (some (errorResponse (fs.lookup "id") (-32601)
          ("Unknown method: " ++ name)))
    | some (.arr _) => .error .typeError
    | some (.obj _) => .error .typeError
    | m =>
      .ok (some (errorResponse (fs.lookup "id") (-32601)
        ("Unknown method: " ++ pyStrOpt m)))
  | .ok _ => .error .attrError

/-- What one `handle_message` call does: the JSON lines it prints on
stdout, or the exception that escapes it (crashing the server). -/
inductive Outcome where
  | out (lines : List Json)
  | crash (e : PyExn)
  deriving Repr

/-- `handle_message` (lines 220-268).  On an exception from the `try`
block, the `except` handler rebuilds a -32603 response from
`request.get('id')` — but when `json.loads` itself raised, the local
`request` was never assigned, so that line raises `UnboundLocalError`,
and when the parsed line is not a dict, `request.get` raises
`AttributeError`; either exception escapes `handle_message`. -/
def handle_message (provider : Provider) (parsed : Except PyExn Json) :
    Outcome :=
  match tryBody provider parsed with
  | .ok none => .out []
  | .ok (some resp) => .out [resp]
  | .error e =>
    match parsed with
    | .error _ => .crash .unboundLocal
    | .ok (.obj fs) =>
      .out [errorResponse (fs.lookup "id") (-32603) (PyExn.msg e)]
    | .ok _ => .crash .attrError

/-- `run` (lines 270-282), applied to the `json.loads(line.strip())`
outcomes of the stdin lines: the stdout lines produced, paired with the
exception that terminated the process early (`none` when every line was
handled and the loop ended at end of stream). -/
def run (provider : Provider) :
    List (Except PyExn Json) → List Json × Option PyExn
  | [] => ([], none)
  | p :: rest =>
    match handle_message provider p with
    | .out os =>
      let r := run provider rest
      (os ++ r.1, r.2)
    | .crash e => ([], some e)

/-- Field access on a response object (for stating id-echo properties). -/
def Json.field : Json → String → Option Json
  | .obj fs, k => fs.lookup k
  | _, _ => none

/-- A provider used to instantiate provider-independent statements. -/
def nullProvider : Provider := fun _ _ => .ok []

/-- A transcript entry whose `text` field is `t`. -/
def mkEntry (t : String) : Json := .obj [("text", .str t)]

/-- Joining a list of strings with newline separators (the spec's "join
their text fields with newline separators into a single string"). -/
def joinNL : List String → String
  | [] => ""
  | [s] => s
  | s :: rest => s ++ "\n" ++ joinNL rest

/-! ## Helper lemmas -/

theorem crash_of_parse_error (provider : Provider) (e : PyExn) :
    handle_message provider (.error e) = .crash .unboundLocal := rfl

theorem out_none_of_tryBody (provider : Provider) (parsed : Except PyExn Json)
    (h : tryBody provider parsed = .ok none) :
    handle_message provider parsed = .out [] := by
  unfold handle_message
  rw [h]

theorem out_one_of_tryBody (provider : Provider) (parsed : Except PyExn Json)
    (resp : Json) (h : tryBody provider parsed = .ok (some resp)) :
    handle_message provider parsed = .out [resp] := by
  unfold handle_message
  rw [h]

theorem out_exc_of_tryBody (provider : Provider) (fs : List (String × Json))
    (e : PyExn) (h : tryBody provider (.ok (.obj fs)) = .error e) :
    handle_message provider (.ok (.obj fs)) =
      .out [errorResponse (fs.lookup "id") (-32603) (PyExn.msg e)] := by
  unfold handle_message
  rw [h]

theorem tryBody_dispatch (provider : Provider) (fs : List (String × Json))
    (name : String) (hm : fs.lookup "method" = some (.str name))
    (hc : handlerNames.contains name = true) :
    tryBody provider (.ok (.obj fs)) =
      match dispatch provider name ((fs.lookup "params").getD (.obj [])) with
      | .ok none => .ok none
      | .ok (some result) => .ok (some (successResponse (fs.lookup "id") result))
      | .error e => .error e := by
  have hmem : name ∈ handlerNames := by simpa using hc
  simp [tryBody, hm, hmem]

theorem tryBody_unknown (provider : Provider) (fs : List (String × Json))
    (name : String) (hm : fs.lookup "method" = some (.str name))
    (hc : handlerNames.contains name = false) :
    tryBody provider (.ok (.obj fs)) =
      .ok (some (errorResponse (fs.lookup "id") (-32601)
        ("Unknown method: " ++ name))) := by
  have hmem : name ∉ handlerNames := by simpa using hc
  simp [tryBody, hm, hmem]

theorem field_id_success (idv : Option Json) (r : Json) :
    Json.field (successResponse idv r) "id" = some (idv.getD .null) := rfl

theorem field_id_error (idv : Option Json) (c : Int) (m : String) :
    Json.field (errorResponse idv c m) "id" = some (idv.getD .null) := rfl

theorem init_cases (p : Json) :
    (∃ fs, p = .obj fs ∧
       handle_initialize p = .ok (initResult ((fs.lookup "protocolVersion").getD (.str "0.1.0"))))
  ∨ handle_initialize p = .error .attrError := by
  cases p <;> simp [ handle_initialize]

theorem call_cases (provider : Provider) (p : Json) :
    (∃ r, handle_call_tool provider p = .ok r)
  ∨ handle_call_tool provider p = .error .attrError := by
  cases p with
  | obj fs =>
    left
    cases h : isGetTranscript (fs.lookup "name") with
    | false =>
      exact ⟨toolErrorObj (-32601) ("Unknown tool: " ++ pyStrOpt (fs.lookup "name")),
        by simp [ handle_call_tool, h]⟩
    | true =>
      cases hcb : callBody provider ((fs.lookup "arguments").getD (.obj [])) with
      | ok r => exact ⟨r, by simp [ handle_call_tool, h, hcb]⟩
      | error e =>
        exact ⟨toolErrorObj (-32000) ("Error getting transcript: " ++ e.msg),
          by simp [ handle_call_tool, h, hcb]⟩
  | null => right; rfl
  | bool b => right; rfl
  | num n => right; rfl
  | str s => right; rfl
  | arr xs => right; rfl

theorem except_bind_ok {α β ε : Type} (x : α) (f : α → Except ε β) :
    (Except.ok x >>= f) = f x := rfl

theorem except_bind_err {α β ε : Type} (e : ε) (f : α → Except ε β) :
    ((Except.error e : Except ε α) >>= f) = .error e := rfl

theorem except_map_ok {α β ε : Type} (f : α → β) (x : α) :
    (f <$> (Except.ok x : Except ε α)) = .ok (f x) := rfl

theorem except_map_err {α β ε : Type} (f : α → β) (e : ε) :
    (f <$> (Except.error e : Except ε α)) = .error e := rfl

theorem formatEntries_mkEntry (ts : List String) :
    formatEntries (ts.map mkEntry) = .ok (ts.map Json.str) := by
  induction ts with
  | nil => rfl
  | cons t rest ih =>
    simp [formatEntries, mkEntry, pyGetItem, ih]
    rfl

theorem join_map_str (ts : List String) :
    pyJoinNewline (ts.map Json.str) = .ok (joinNL ts) := by
  induction ts with
  | nil => rfl
  | cons s rest ih =>
    cases rest with
    | nil => rfl
    | cons s2 rest2 =>
      simp only [List.map] at ih
      simp [pyJoinNewline, joinNL, ih, Except.map]

theorem hm_of_dispatch_some (provider : Provider) (fs : List (String × Json))
    (name : String) (r : Json)
    (hm : fs.lookup "method" = some (.str name))
    (hc : handlerNames.contains name = true)
    (hd : dispatch provider name ((fs.lookup "params").getD (.obj [])) = .ok (some r)) :
    handle_message provider (.ok (.obj fs)) =
      .out [successResponse (fs.lookup "id") r] := by
  apply out_one_of_tryBody
  rw [tryBody_dispatch provider fs name hm hc, hd]

theorem hm_of_dispatch_error (provider : Provider) (fs : List (String × Json))
    (name : String) (e : PyExn)
    (hm : fs.lookup "method" = some (.str name))
    (hc : handlerNames.contains name = true)
    (hd : dispatch provider name ((fs.lookup "params").getD (.obj [])) = .error e) :
    handle_message provider (.ok (.obj fs)) =
      .out [errorResponse (fs.lookup "id") (-32603) (PyExn.msg e)] := by
  apply out_exc_of_tryBody
  rw [tryBody_dispatch provider fs name hm hc, hd]

theorem hm_of_dispatch_none (provider : Provider) (fs : List (String × Json))
    (name : String)
    (hm : fs.lookup "method" = some (.str name))
    (hc : handlerNames.contains name = true)
    (hd : dispatch provider name ((fs.lookup "params").getD (.obj [])) = .ok none) :
    handle_message provider (.ok (.obj fs)) = .out [] := by
  apply out_none_of_tryBody
  rw [tryBody_dispatch provider fs name hm hc, hd]

theorem respond_nonnotif (provider : Provider) (fs : List (String × Json))
    (h1 : fs.lookup "method" ≠ some (.str "notifications/initialized"))
    (h2 : fs.lookup "method" ≠ some (.str "cancelled")) :
    ∃ resp, handle_message provider (.ok (.obj fs)) = .out [resp]
      ∧ Json.field resp "id" = some ((fs.lookup "id").getD .null) := by
  cases hm : fs.lookup "method" with
  | none =>
    refine ⟨errorResponse (fs.lookup "id") (-32601) ("Unknown method: " ++ pyStrOpt none),
      ?_, field_id_error _ _ _⟩
    apply out_one_of_tryBody
    simp [tryBody, hm]
  | some j =>
    cases j with
    | str name =>
      cases hc : handlerNames.contains name with
      | false =>
        exact ⟨errorResponse (fs.lookup "id") (-32601) ("Unknown method: " ++ name),
          out_one_of_tryBody _ _ _ (tryBody_unknown provider fs name hm hc),
          field_id_error _ _ _⟩
      | true =>
        have hmem : name ∈ handlerNames := by simpa using hc
        have hn1 : name ≠ "notifications/initialized" := fun hcon => h1 (by rw [hm, hcon])
        have hn2 : name ≠ "cancelled" := fun hcon => h2 (by rw [hm, hcon])
        simp only [handlerNames, List.mem_cons, List.not_mem_nil, or_false] at hmem
        rcases hmem with rfl | rfl | rfl | rfl | rfl | rfl | rfl
        · rcases init_cases ((fs.lookup "params").getD (.obj [])) with ⟨pfs, hpe, hr⟩ | hr
          · have hd0 : dispatch provider "initialize" ((fs.lookup "params").getD (.obj []))
                = Except.map some ( handle_initialize ((fs.lookup "params").getD (.obj []))) := rfl
            rw [hr] at hd0
            exact ⟨_, hm_of_dispatch_some provider fs _ _ hm hc (hd0.trans rfl),
              field_id_success _ _⟩
          · have hd0 : dispatch provider "initialize" ((fs.lookup "params").getD (.obj []))
                = Except.map some ( handle_initialize ((fs.lookup "params").getD (.obj []))) := rfl
            rw [hr] at hd0
            exact ⟨_, hm_of_dispatch_error provider fs _ _ hm hc (hd0.trans rfl),
              field_id_error _ _ _⟩
        · exact ⟨_, hm_of_dispatch_some provider fs _ _ hm hc rfl, field_id_success _ _⟩
        · rcases call_cases provider ((fs.lookup "params").getD (.obj [])) with ⟨r, hr⟩ | hr
          · have hd0 : dispatch provider "tools/call" ((fs.lookup "params").getD (.obj []))
                = Except.map some ( handle_call_tool provider ((fs.lookup "params").getD (.obj []))) := rfl
            rw [hr] at hd0
            exact ⟨_, hm_of_dispatch_some provider fs _ _ hm hc (hd0.trans rfl),
              field_id_success _ _⟩
          · have hd0 : dispatch provider "tools/call" ((fs.lookup "params").getD (.obj []))
                = Except.map some ( handle_call_tool provider ((fs.lookup "params").getD (.obj []))) := rfl
            rw [hr] at hd0
            exact ⟨_, hm_of_dispatch_error provider fs _ _ hm hc (hd0.trans rfl),
              field_id_error _ _ _⟩
        · exact ⟨_, hm_of_dispatch_some provider fs _ _ hm hc rfl, field_id_success _ _⟩
        · exact ⟨_, hm_of_dispatch_some provider fs _ _ hm hc rfl, field_id_success _ _⟩
        · exact absurd rfl hn1
        · exact absurd rfl hn2
    | null =>
      refine ⟨errorResponse (fs.lookup "id") (-32601) ("Unknown method: " ++ pyStrOpt (some .null)),
        ?_, field_id_error _ _ _⟩
      apply out_one_of_tryBody
      simp [tryBody, hm]
    | bool b =>
      refine ⟨errorResponse (fs.lookup "id") (-32601) ("Unknown method: " ++ pyStrOpt (some (.bool b))),
        ?_, field_id_error _ _ _⟩
      apply out_one_of_tryBody
      simp [tryBody, hm]
    | num n =>
      refine ⟨errorResponse (fs.lookup "id") (-32601) ("Unknown method: " ++ pyStrOpt (some (.num n))),
        ?_, field_id_error _ _ _⟩
      apply out_one_of_tryBody
      simp [tryBody, hm]
    | arr xs =>
      refine ⟨errorResponse (fs.lookup "id") (-32603) (PyExn.msg .typeError),
        ?_, field_id_error _ _ _⟩
      apply out_exc_of_tryBody
      simp [tryBody, hm]
    | obj ofs =>
      refine ⟨errorResponse (fs.lookup "id") (-32603) (PyExn.msg .typeError),
        ?_, field_id_error _ _ _⟩
      apply out_exc_of_tryBody
      simp [tryBody, hm]

/-! ## Claims -/

/-- Claim C1, code bug.  The claim says a line that is not valid JSON
produces one well-formed -32603 error response and the loop continues.
On the code, `json.loads` raises before `request` is assigned, so the
`except` block's `request.get('id')` raises `UnboundLocalError`, which
escapes `handle_message`: no response is printed and the loop terminates
without handling the following line. -/
theorem C1_parse_failure_crash :
    handle_message nullProvider
      (.error (.jsonDecodeError "Expecting value: line 1 column 1 (char 0)"))
      = .crash .unboundLocal
  ∧ run nullProvider
      [.error (.jsonDecodeError "Expecting value: line 1 column 1 (char 0)"),
       .ok (.obj [("method", .str "tools/list"), ("id", .num 1)])]
      = ([], some .unboundLocal) := ⟨rfl, rfl⟩

/-- Claim C2, counterexample.  `cancelled` is a key of the handler table,
yet the request `{"method": "cancelled", "id": 1}` produces zero response
lines, not exactly one. -/
theorem C2_counterexample :
    methodInHandlers (some (.str "cancelled")) = true
  ∧ handle_message nullProvider
      (.ok (.obj [("method", .str "cancelled"), ("id", .num 1)])) = .out [] :=
  ⟨rfl, rfl⟩

/-- Claim C2, amended: for every well-formed request whose method is in the
handler table and is not one of the two notification methods
(`notifications/initialized`, `cancelled`), handling the request emits
exactly one JSON response line whose `id` field equals the request's `id`
(JSON `null` when the request has none). -/
theorem C2_single_response_echoes_id (provider : Provider)
    (fs : List (String × Json)) (name : String)
    (hm : fs.lookup "method" = some (.str name))
    (_hin : methodInHandlers (fs.lookup "method") = true)
    (h1 : name ≠ "notifications/initialized") (h2 : name ≠ "cancelled") :
    ∃ resp, handle_message provider (.ok (.obj fs)) = .out [resp]
      ∧ Json.field resp "id" = some ((fs.lookup "id").getD .null) :=
  respond_nonnotif provider fs (by rw [hm]; simp [h1]) (by rw [hm]; simp [h2])

theorem C2_witness :
    ∃ resp, handle_message nullProvider
        (.ok (.obj [("method", .str "tools/list"), ("id", .num 7)])) = .out [resp]
      ∧ Json.field resp "id" =
          some ((List.lookup "id"
            [("method", Json.str "tools/list"), ("id", Json.num 7)]).getD .null) :=
  C2_single_response_echoes_id nullProvider _ "tools/list" rfl rfl
    (by decide) (by decide)

/-- Claim C3: when the provider returns transcript entries whose `text`
fields are `ts`, a `tools/call` of `get_transcript` returns
`{content: [{type: "text", text: t}]}` with `t` the texts joined by
newlines. -/
theorem C3_transcript_joined (provider : Provider) (v : Json) (ts : List String)
    (h : provider v none = .ok (ts.map mkEntry)) :
    handle_call_tool provider
      (.obj [("name", .str "get_transcript"),
             ("arguments", .obj [("video_id", v)])])
      = .ok (.obj [("content", .arr
          [.obj [("type", .str "text"), ("text", .str (joinNL ts))]])]) := by
  simp [ handle_call_tool, isGetTranscript, callBody, pyGetItem, pyTruthyOpt, h,
    formatEntries_mkEntry, join_map_str, List.lookup,
    except_bind_ok, except_bind_err, except_map_ok, except_map_err]

theorem C3_witness :
    joinNL ["a", "b"] = "a\nb"
  ∧ handle_call_tool (fun _ _ => .ok (["a", "b"].map mkEntry))
      (.obj [("name", .str "get_transcript"),
             ("arguments", .obj [("video_id", .str "dQw4w9WgXcQ")])])
      = .ok (.obj [("content", .arr
          [.obj [("type", .str "text"), ("text", .str (joinNL ["a", "b"]))]])]) :=
  ⟨rfl, C3_transcript_joined (fun _ _ => .ok (["a", "b"].map mkEntry))
    (.str "dQw4w9WgXcQ") ["a", "b"] rfl⟩

/-- Claim C4: a `get_transcript` call whose `arguments` lack `video_id`,
and one where the provider fails, both return the in-result error object
with code -32000 and message `"Error getting transcript: "` followed by
the cause string (`str(KeyError('video_id')) = "'video_id'"` in the first
case, the provider's message in the second). -/
theorem C4_get_transcript_errors :
    (∀ (provider : Provider) (afs : List (String × Json)),
        afs.lookup "video_id" = none →
        handle_call_tool provider
          (.obj [("name", .str "get_transcript"), ("arguments", .obj afs)])
          = .ok (toolErrorObj (-32000) "Error getting transcript: 'video_id'"))
  ∧ (∀ (provider : Provider) (v : Json) (m : String),
        provider v none = .error m →
        handle_call_tool provider
          (.obj [("name", .str "get_transcript"),
                 ("arguments", .obj [("video_id", v)])])
          = .ok (toolErrorObj (-32000) ("Error getting transcript: " ++ m))) := by
  constructor
  · intro provider afs ha
    simp [ handle_call_tool, isGetTranscript, callBody, pyGetItem, ha, List.lookup,
      toolErrorObj, PyExn.msg,
      except_bind_ok, except_bind_err, except_map_ok, except_map_err]
  · intro provider v m h
    simp [ handle_call_tool, isGetTranscript, callBody, pyGetItem, pyTruthyOpt, h,
      toolErrorObj, PyExn.msg, List.lookup,
      except_bind_ok, except_bind_err, except_map_ok, except_map_err]

theorem C4_witness :
    handle_call_tool nullProvider
      (.obj [("name", .str "get_transcript"), ("arguments", .obj [])])
      = .ok (toolErrorObj (-32000) "Error getting transcript: 'video_id'")
  ∧ handle_call_tool (fun _ _ => .error "no captions")
      (.obj [("name", .str "get_transcript"),
             ("arguments", .obj [("video_id", .str "x")])])
      = .ok (toolErrorObj (-32000) ("Error getting transcript: " ++ "no captions")) :=
  ⟨C4_get_transcript_errors.1 nullProvider [] rfl,
   C4_get_transcript_errors.2 (fun _ _ => .error "no captions") (.str "x")
     "no captions" rfl⟩

/-- Claim C5: a `tools/call` whose `name` is not `get_transcript` yields a
success envelope (a `result` field, not an RPC `error` field) whose result
is the -32601 error object naming the unknown tool; the right-hand side
does not mention the provider, so the provider is never consulted. -/
theorem C5_unknown_tool_result (provider : Provider)
    (fs pfs : List (String × Json))
    (hm : fs.lookup "method" = some (.str "tools/call"))
    (hp : fs.lookup "params" = some (.obj pfs))
    (hn : isGetTranscript (pfs.lookup "name") = false) :
    handle_message provider (.ok (.obj fs))
      = .out [successResponse (fs.lookup "id")
          (toolErrorObj (-32601)
            ("Unknown tool: " ++ pyStrOpt (pfs.lookup "name")))] := by
  have hct : handle_call_tool provider (.obj pfs)
      = .ok (toolErrorObj (-32601)
          ("Unknown tool: " ++ pyStrOpt (pfs.lookup "name"))) := by
    simp [ handle_call_tool, hn]
  apply hm_of_dispatch_some provider fs "tools/call" _ hm rfl
  rw [hp]
  show Except.map some ( handle_call_tool provider (.obj pfs)) = _
  rw [hct]
  rfl

theorem C5_witness :
    handle_message nullProvider
      (.ok (.obj [("method", .str "tools/call"), ("id", .num 2),
                  ("params", .obj [("name", .str "web_search")])]))
      = .out [successResponse (some (.num 2))
          (toolErrorObj (-32601)
            ("Unknown tool: " ++ pyStrOpt (some (.str "web_search"))))] :=
  C5_unknown_tool_result nullProvider
    [("method", Json.str "tools/call"), ("id", Json.num 2),
     ("params", Json.obj [("name", Json.str "web_search")])]
    [("name", Json.str "web_search")] rfl rfl rfl

/-- Claim C6: a well-formed request whose method is absent from the handler
table (a missing `method` field included, and any hashable `method` value
— the spec's envelope has a string-or-absent `method`) gets a -32601 error
response; the response does not depend on the provider, so no handler
runs. -/
theorem C6_unknown_method (provider : Provider) (fs : List (String × Json))
    (hh : pyHashableOpt (fs.lookup "method") = true)
    (h : methodInHandlers (fs.lookup "method") = false) :
    handle_message provider (.ok (.obj fs))
      = .out [errorResponse (fs.lookup "id") (-32601)
          ("Unknown method: " ++ pyStrOpt (fs.lookup "method"))] := by
  cases hm : fs.lookup "method" with
  | none =>
    apply out_one_of_tryBody
    simp [tryBody, hm]
  | some j =>
    cases j with
    | str name =>
      have hc : handlerNames.contains name = false := by
        rw [hm] at h
        simpa [methodInHandlers] using h
      apply out_one_of_tryBody
      rw [tryBody_unknown provider fs name hm hc]
      rfl
    | null =>
      apply out_one_of_tryBody
      simp [tryBody, hm]
    | bool b =>
      apply out_one_of_tryBody
      simp [tryBody, hm]
    | num n =>
      apply out_one_of_tryBody
      simp [tryBody, hm]
    | arr xs =>
      rw [hm] at hh
      simp [pyHashableOpt, pyHashable] at hh
    | obj ofs =>
      rw [hm] at hh
      simp [pyHashableOpt, pyHashable] at hh

theorem C6_witness :
    handle_message nullProvider
      (.ok (.obj [("method", .str "frobnicate"), ("id", .num 9)]))
      = .out [errorResponse (some (.num 9)) (-32601)
          ("Unknown method: " ++ pyStrOpt (some (.str "frobnicate")))] :=
  C6_unknown_method nullProvider _ rfl rfl

/-- Claim C7, counterexample.  A request without an `id` field is not
treated as a notification: `{"method": "tools/list"}` gets a response
line (with `id` null), while the claim says none is emitted. -/
theorem C7_counterexample :
    List.lookup "id" [("method", Json.str "tools/list")] = (none : Option Json)
  ∧ handle_message nullProvider (.ok (.obj [("method", .str "tools/list")]))
      = .out [successResponse none ( handle_list_tools (.obj []))] :=
  ⟨rfl, rfl⟩

/-- Claim C7, amended: absence of `id` does not suppress the response.
Only the two handlers that return `None` produce no response; for a
request lacking `id` whose method is any other value, a response line is
emitted and its `id` field is JSON `null`. -/
theorem C7_no_id_still_responds (provider : Provider)
    (fs : List (String × Json))
    (hid : fs.lookup "id" = none)
    (h1 : fs.lookup "method" ≠ some (.str "notifications/initialized"))
    (h2 : fs.lookup "method" ≠ some (.str "cancelled")) :
    ∃ resp, handle_message provider (.ok (.obj fs)) = .out [resp]
      ∧ Json.field resp "id" = some .null := by
  obtain ⟨resp, hr, hf⟩ := respond_nonnotif provider fs h1 h2
  rw [hid] at hf
  exact ⟨resp, hr, hf⟩

theorem C7_witness :
    ∃ resp, handle_message nullProvider
        (.ok (.obj [("method", .str "resources/list")])) = .out [resp]
      ∧ Json.field resp "id" = some .null :=
  C7_no_id_still_responds nullProvider [("method", Json.str "resources/list")]
    rfl (by simp [List.lookup]) (by simp [List.lookup])

/-- Claim C8: `initialize` echoes `params.protocolVersion` verbatim when
present and uses the default `"0.1.0"` when absent; in both cases the
result is `initResult`, which carries the static server name/version and
the capabilities advertising tools available and resources and resource
templates unavailable. -/
theorem C8_initialize_result (pfs : List (String × Json)) :
    (∀ v, pfs.lookup "protocolVersion" = some v →
        handle_initialize (.obj pfs) = .ok (initResult v))
  ∧ (pfs.lookup "protocolVersion" = none →
        handle_initialize (.obj pfs) = .ok (initResult (.str "0.1.0"))) := by
  constructor
  · intro v hv
    simp [ handle_initialize, hv]
  · intro hv
    simp [ handle_initialize, hv]

theorem C8_witness :
    handle_initialize (.obj [("protocolVersion", .str "2024-11-05")])
      = .ok (initResult (.str "2024-11-05"))
  ∧ handle_initialize (.obj []) = .ok (initResult (.str "0.1.0")) :=
  ⟨(C8_initialize_result [("protocolVersion", Json.str "2024-11-05")]).1
     (.str "2024-11-05") rfl,
   (C8_initialize_result []).2 rfl⟩

/-- Claim C9: requests with method `notifications/initialized` or
`cancelled` produce zero response lines: the handler returns `None` and
`handle_message` returns without printing, distinct from an empty-object
result. -/
theorem C9_notifications_silent (provider : Provider)
    (fs : List (String × Json))
    (h : fs.lookup "method" = some (.str "notifications/initialized")
       ∨ fs.lookup "method" = some (.str "cancelled")) :
    handle_message provider (.ok (.obj fs)) = .out [] := by
  rcases h with h | h
  · exact hm_of_dispatch_none provider fs _ h rfl rfl
  · exact hm_of_dispatch_none provider fs _ h rfl rfl

theorem C9_witness :
    handle_message nullProvider
      (.ok (.obj [("method", .str "notifications/initialized"),
                  ("id", .num 5)])) = .out [] :=
  C9_notifications_silent nullProvider _ (Or.inl rfl)

/-- Claim C10: a `get_transcript` call whose `arguments` carry a falsy
`languages` value (empty list, empty string, 0, false, null) behaves
exactly like one with `languages` omitted: the provider is called without
a languages argument, for every provider. -/
theorem C10_falsy_languages (provider : Provider) (v lv : Json)
    (h : pyTruthy lv = false) :
    handle_call_tool provider
      (.obj [("name", .str "get_transcript"),
             ("arguments", .obj [("video_id", v), ("languages", lv)])])
  = handle_call_tool provider
      (.obj [("name", .str "get_transcript"),
             ("arguments", .obj [("video_id", v)])]) := by
  simp [ handle_call_tool, isGetTranscript, callBody, pyGetItem, pyTruthyOpt, h,
    List.lookup, except_bind_ok, except_bind_err, except_map_ok, except_map_err]

theorem C10_witness :
    handle_call_tool nullProvider
      (.obj [("name", .str "get_transcript"),
             ("arguments", .obj [("video_id", .str "x"), ("languages", .arr [])])])
  = handle_call_tool nullProvider
      (.obj [("name", .str "get_transcript"),
             ("arguments", .obj [("video_id", .str "x")])]) :=
  C10_falsy_languages nullProvider (.str "x") (.arr []) rfl

end YTS
